import Mathlib

/-
Verification of the vfscache item engine (vfs/vfscache/item.go) against its
specification.  The Go source is shallowly embedded: the Item struct becomes a
Lean structure, the on-disk state (backing file, metadata file) becomes an
explicit Disk record, and fallible external calls (metadata save, file-handle
close, downloader construction/start/ensure/close, remote NewObject/copy) are
driven by an Env record of outcomes.  Machine integers are modelled as Int
(the Go code uses int64 arithmetic that never overflows in the scenarios the
claims quantify over).  File contents are not modelled, only sizes and the
byte ranges recorded as present, which is what every claim is about.
-/

namespace VfsCache

/-- Modelled from the spec: lib/ranges is part of the repository but not under
src/.  A Range is the half-open byte interval from pos to pos plus size, per
spec section 3 (Range) and 4.1. -/
structure RRange where
  pos : Int
  size : Int
deriving Repr, DecidableEq

/-- Byte membership in a single range: pos ≤ x < pos + size.  A range with
non-positive size contains no bytes. -/
def RRange.memB (r : RRange) (x : Int) : Bool :=
  decide (r.pos ≤ x) && decide (x < r.pos + r.size)

/-- Modelled from the spec: a Ranges value denotes a union of half-open byte
ranges.  The spec normalises the representation (sorted, merged); the claims
only ever quantify over the denoted byte set, so we keep the extensional list
representation and define all operations by their byte-set semantics from
spec section 4.1. -/
def Ranges.memB (rs : List RRange) (x : Int) : Bool :=
  rs.any (fun r => r.memB x)

/-- All of the n consecutive bytes starting at pos are present. -/
def Ranges.coveredFrom (rs : List RRange) (pos : Int) : Nat → Bool
  | 0 => true
  | n + 1 => Ranges.memB rs pos && Ranges.coveredFrom rs (pos + 1) n

/-- Modelled from the spec: Present(r) is true iff every byte of r lies in
some stored range; zero-length (and degenerate non-positive) ranges are
trivially present (spec 4.1 edge cases). -/
def Ranges.Present (rs : List RRange) (r : RRange) : Bool :=
  if r.size ≤ 0 then true else Ranges.coveredFrom rs r.pos r.size.toNat

/-- Modelled from the spec: Insert(r) is union with r.  Merging of adjacent
entries only changes the representation, not the byte set. -/
def Ranges.Insert (rs : List RRange) (r : RRange) : List RRange :=
  r :: rs

/-- Clip one range to another: the intersection interval (possibly of
non-positive size, i.e. empty). -/
def RRange.clip (q r : RRange) : RRange :=
  { pos := max q.pos r.pos,
    size := min (q.pos + q.size) (r.pos + r.size) - max q.pos r.pos }

/-- Modelled from the spec: Intersection(clip) keeps only the parts of each
stored range falling within clip (spec 4.1). -/
def Ranges.Intersection (rs : List RRange) (r : RRange) : List RRange :=
  rs.map (fun q => q.clip r)

/-- Model of fs.Object: the item engine only consumes size and the cache
fingerprint function applied to the object (spec section 6), so a remote
object is a size together with its fingerprint. -/
structure Obj where
  size : Int
  fingerprint : String
deriving Repr, DecidableEq

/-- Model of the downloader facade: the item only observes running() plus the
outcomes of start/ensure/close, which come from Env. -/
structure Downloader where
  running : Bool
deriving Repr, DecidableEq

/-- The metadata file on disk: absent, present but undecodable, or a decoded
record of the four persisted fields ATime, Size, Rs, Fingerprint. -/
inductive MetaFile where
  | absent
  | corrupt
  | good (size : Int) (rs : List RRange) (fingerprint : String) (atime : Int)
deriving Repr, DecidableEq

/-- On-disk state owned by one item: the backing file (present with a size,
or absent) and the sibling metadata file.  File contents beyond the size are
not modelled; transient stat and I/O faults other than non-existence are not
modelled (no claim concerns them). -/
structure Disk where
  backing : Option Int
  meta : MetaFile
deriving Repr, DecidableEq

/-- Error values, one per distinct error site of item.go that the embedding
can reach. -/
inductive VErr where
  | alreadyClosed
  | didntOpenFile
  | closeSaveFailed
  | readAtNotOpen
  | writeAtNotOpen
  | statNotExist
  | downloadNilObject
  | newDownloaderFailed
  | startFailed
  | downloaderNil
  | ensureFailed
  | storeNewObjectFailed
  | storeCopyFailed
  | dlCloseFailed
  | fdCloseFailed
  | saveFailed
deriving Repr, DecidableEq

/-- Embedding of the Item struct (item.go lines 21 to 36).  The fd handle is
modelled by whether it is open; the bytes it reaches live in Disk.  The field
name changed is the dirty flag of the spec. -/
structure Item where
  opens : Int
  fd : Bool
  downloader : Option Downloader
  o : Option Obj
  changed : Bool
  ATime : Int
  Size : Int
  Rs : List RRange
  Fingerprint : String
deriving Repr, DecidableEq

/-- Outcomes of the external fallible calls an item operation may make.  Each
field models one call site succeeding or failing; copyResult is the object
returned by a successful copy to the remote. -/
structure Env where
  saveOk : Bool
  fdCloseOk : Bool
  newDownloaderOk : Bool
  startOk : Bool
  ensureOk : Bool
  dlCloseOk : Bool
  newObjectOk : Bool
  copyOk : Bool
  copyResult : Obj
deriving Repr, DecidableEq

/-- Embeds clean (item.go lines 77 to 82): reset the persisted fields after
the cache file has been deleted. -/
def Item.clean (item : Item) (now : Int) : Item :=
  { item with Rs := [], Fingerprint := "", Size := 0, ATime := now }

/-- Embeds removeFile (item.go lines 455 to 465): delete the backing file,
ignoring absence. -/
def Disk.removeFile (disk : Disk) : Disk :=
  { disk with backing := none }

/-- Embeds removeMeta (item.go lines 470 to 480): delete the metadata file,
ignoring absence. -/
def Disk.removeMeta (disk : Disk) : Disk :=
  { disk with meta := .absent }

/-- Embeds the remove helper (item.go lines 485 to 489): clean the in-memory
state and delete both files. -/
def Item.removeAll (item : Item) (disk : Disk) (now : Int) : Item × Disk :=
  (item.clean now, disk.removeFile.removeMeta)

/-- Embeds save (item.go lines 108 to 122): write the four persisted fields
to the metadata file; Env.saveOk models os.Create and encode succeeding. -/
def Item.saveMeta (item : Item) (disk : Disk) (env : Env) : Disk × Option VErr :=
  if env.saveOk then
    ({ disk with meta := .good item.Size item.Rs item.Fingerprint item.ATime }, none)
  else (disk, some .saveFailed)

/-- Embeds written (item.go lines 572 to 576): insert the range with Pos
equal to offset and Size equal to offset plus size into Rs, then save the
metadata best-effort, dropping any save error. -/
def Item.written (item : Item) (disk : Disk) (env : Env) (offset size : Int) :
    Item × Disk :=
  let item2 := { item with
    Rs := Ranges.Insert item.Rs { pos := offset, size := offset + size } }
  let sres := item2.saveMeta disk env
  (item2, sres.1)

/-- Embeds getSize (item.go lines 219 to 236): stat the backing file (via fd
or path, identical in this model); if it does not exist fall back to the
remote object size when a remote object is held, else report the not-exist
error. -/
def Item.getSize (item : Item) (disk : Disk) : Except VErr Int :=
  match disk.backing with
  | some s => .ok s
  | none =>
    match item.o with
    | some ob => .ok ob.size
    | none => .error .statNotExist

/-- Embeds Exists (item.go lines 246 to 249): whether getSize succeeds. -/
def Item.Exists (item : Item) (disk : Disk) : Bool :=
  match item.getSize disk with
  | .ok _ => true
  | .error _ => false

/-- Embeds the lowercase truncate (item.go lines 127 to 158): resize the
backing file, creating it if necessary; negative sizes are ignored.  The
open, set-sparse and ftruncate calls of the OS are modelled as succeeding. -/
def Item.truncateFile (_item : Item) (disk : Disk) (size : Int) : Disk :=
  if size < 0 then disk
  else { disk with backing := some size }

/-- Embeds Truncate (item.go lines 183 to 214): read the old size (absence
giving 0), resize the file, set Size, and update Rs and the dirty flag
according to whether the file grew, shrank or stayed. -/
def Item.Truncate (item : Item) (disk : Disk) (env : Env) (size : Int) :
    (Item × Disk) × Option VErr :=
  let oldSize : Int :=
    match item.getSize disk with
    | .ok s => s
    | .error _ => 0
  let disk2 := item.truncateFile disk size
  let item2 := { item with Size := size }
  if size > oldSize then
    let wres := Item.written { item2 with changed := true } disk2 env oldSize size
    ((wres.1, wres.2), none)
  else if size < oldSize then
    let clipped := Ranges.Intersection item2.Rs { pos := 0, size := size }
    (({ item2 with Rs := clipped, changed := true }, disk2), none)
  else
    (({ item2 with changed := item2.o.isNone }, disk2), none)

/-- Embeds checkObject (item.go lines 419 to 450): reconcile the item with
the given remote object (possibly absent), removing stale cached data.  The
cache objectFingerprint function is modelled as the fingerprint field of the
object. -/
def Item.checkObject (item : Item) (disk : Disk) (o : Option Obj) (now : Int) :
    Item × Disk :=
  match o with
  | none =>
    if item.Fingerprint ≠ "" then
      let rres := item.removeAll disk now
      ({ rres.1 with o := none }, rres.2)
    else
      ({ item with o := none }, disk)
  | some ob =>
    let remoteFingerprint := ob.fingerprint
    let step :=
      if item.Fingerprint ≠ "" then
        if remoteFingerprint ≠ item.Fingerprint then item.removeAll disk now
        else (item, disk)
      else
        ({ item with Fingerprint := remoteFingerprint }, disk)
    ({ step.1 with Size := ob.size, o := some ob }, step.2)

/-- Embeds newItem (item.go lines 42 to 74): stat the cache file (removing
the metadata when the file does not exist), load the metadata (removing the
cache file when the metadata is absent, and removing everything when it is
corrupt), then overwrite Size from the initial stat result when the cache
file existed.  Decode failure leaving partial fields is immaterial because
the corrupt branch wipes the state. -/
def newItem (disk : Disk) (now : Int) : Item × Disk :=
  let item : Item :=
    { opens := 0, fd := false, downloader := none, o := none, changed := false,
      ATime := now, Size := 0, Rs := [], Fingerprint := "" }
  let statRes := disk.backing
  let disk2 :=
    match statRes with
    | none => disk.removeMeta
    | some _ => disk
  let loaded : Item × Bool × Bool :=
    match disk2.meta with
    | .absent => (item, false, false)
    | .corrupt => (item, true, true)
    | .good sz rs fp t =>
      ({ item with Size := sz, Rs := rs, Fingerprint := fp, ATime := t }, true, false)
  let item2 := loaded.1
  let afterLoad : Item × Disk :=
    if loaded.2.1 = false then (item2, disk2.removeFile)
    else if loaded.2.2 then item2.removeAll disk2 now
    else (item2, disk2)
  match statRes with
  | some s => ({ afterLoad.1 with Size := s }, afterLoad.2)
  | none => afterLoad

/-- Embeds present (item.go lines 518 to 523): false while a downloader is
running, else whether the whole of the interval from 0 to Size is present. -/
def Item.present (item : Item) : Bool :=
  match item.downloader with
  | some dl =>
    if dl.running then false
    else Ranges.Present item.Rs { pos := 0, size := item.Size }
  | none => Ranges.Present item.Rs { pos := 0, size := item.Size }

/-- Embeds the pre-clamp of ensure (item.go lines 537 to 539): if offset plus
size exceeds the item Size, the size is reduced to Size minus offset. -/
def ensureClamp (itemSize offset size : Int) : Int :=
  if offset + size > itemSize then itemSize - offset else size

/-- Embeds newDownloader construction (item.go lines 501 to 513): fails when
no remote object is held; closes any existing downloader first; on success
the item holds a fresh, not yet running downloader.  The Bool records whether
an old downloader was closed. -/
def Item.newDownloaderOp (item : Item) (env : Env) : Item × Option VErr × Bool :=
  match item.o with
  | none => (item, some .downloadNilObject, false)
  | some _ =>
    let closedOld := item.downloader.isSome
    if env.newDownloaderOk then
      ({ item with downloader := some { running := false } }, none, closedOld)
    else
      ({ item with downloader := none }, some .newDownloaderFailed, closedOld)

/-- Result of ensure: the updated item, the error if any, and whether a
downloader was created and started along the way. -/
structure EnsureRes where
  item : Item
  err : Option VErr
  dlCreated : Bool
  dlStarted : Bool
deriving Repr, DecidableEq

/-- Embeds ensure (item.go lines 535 to 567): clamp the requested size, return
immediately when the clamped range is already present, else build a fresh
downloader, start it if not running, and wait for it to make the range
present.  Modelled from the spec where the downloader itself is concerned:
its ensure blocks until the requested range has been reported present via
written, so a successful wait makes exactly the requested range present. -/
def Item.ensure (item : Item) (env : Env) (offset size : Int) : EnsureRes :=
  let size2 := ensureClamp item.Size offset size
  let r : RRange := { pos := offset, size := size2 }
  if Ranges.Present item.Rs r then
    { item := item, err := none, dlCreated := false, dlStarted := false }
  else
    let ndl := item.newDownloaderOp env
    match ndl.2.1 with
    | some e => { item := ndl.1, err := some e, dlCreated := false, dlStarted := false }
    | none =>
      match ndl.1.downloader with
      | none =>
        { item := ndl.1, err := some .downloaderNil, dlCreated := true, dlStarted := false }
      | some dl =>
        if dl.running = false then
          if env.startOk then
            let item2 := { ndl.1 with downloader := some { running := true } }
            if env.ensureOk then
              { item := { item2 with Rs := Ranges.Insert item2.Rs r }, err := none,
                dlCreated := true, dlStarted := true }
            else
              { item := item2, err := some .ensureFailed, dlCreated := true, dlStarted := true }
          else
            { item := ndl.1, err := some .startFailed, dlCreated := true, dlStarted := false }
        else
          if env.ensureOk then
            { item := { ndl.1 with Rs := Ranges.Insert ndl.1.Rs r }, err := none,
              dlCreated := true, dlStarted := false }
          else
            { item := ndl.1, err := some .ensureFailed, dlCreated := true, dlStarted := false }

/-- Embeds store (item.go lines 320 to 345): ensure the whole file (with the
sentinel length 0x7fffffffffffffff) is present, find the cache file object,
copy it to the remote, and replace the held remote object with the result. -/
def Item.store (item : Item) (disk : Disk) (env : Env) :
    (Item × Disk) × Option VErr :=
  let eres := item.ensure env 0 9223372036854775807
  match eres.err with
  | some e => ((eres.item, disk), some e)
  | none =>
    if env.newObjectOk = false then ((eres.item, disk), some .storeNewObjectFailed)
    else if env.copyOk = false then ((eres.item, disk), some .storeCopyFailed)
    else (({ eres.item with o := some env.copyResult }, disk), none)

/-- Intermediate state of Close before its deferred function runs. -/
structure CloseState where
  item : Item
  disk : Disk
  err : Option VErr
  detached : Option Downloader
  fdClosed : Bool
  metaSaved : Bool
  storeAttempted : Bool
  modTimeSet : Bool
deriving Repr, DecidableEq

/-- Embeds the body of Close (item.go lines 364 to 414), i.e. everything
except the deferred function: decrement opens, handle the early error and
early success returns, refresh Size, save the metadata, detach the
downloader, close the file handle, set the modtime when unchanged and fully
present, and upload via store when changed. -/
def Item.closeCore (item0 : Item) (disk : Disk) (env : Env) (now : Int) : CloseState :=
  let item := { item0 with ATime := now, opens := item0.opens - 1 }
  if item.opens < 0 then
    { item := item, disk := disk, err := some .alreadyClosed, detached := none,
      fdClosed := false, metaSaved := false, storeAttempted := false, modTimeSet := false }
  else if item.opens > 0 then
    { item := item, disk := disk, err := none, detached := none,
      fdClosed := false, metaSaved := false, storeAttempted := false, modTimeSet := false }
  else
    let item2 :=
      match item.getSize disk with
      | .ok s => { item with Size := s }
      | .error _ => item
    let sres := item2.saveMeta disk env
    match sres.2 with
    | some _ =>
      { item := item2, disk := sres.1, err := some .closeSaveFailed, detached := none,
        fdClosed := false, metaSaved := true, storeAttempted := false, modTimeSet := false }
    | none =>
      let detached := item2.downloader
      let item3 := { item2 with downloader := none }
      if item3.fd = false then
        { item := item3, disk := sres.1, err := some .didntOpenFile, detached := detached,
          fdClosed := false, metaSaved := true, storeAttempted := false, modTimeSet := false }
      else
        let fdErr : Option VErr := if env.fdCloseOk then none else some .fdCloseFailed
        let item4 := { item3 with fd := false }
        let modTimeSet := !item4.changed && item4.present && item4.o.isSome
        if item4.changed then
          let stres := item4.store sres.1 env
          match stres.2 with
          | some e =>
            { item := stres.1.1, disk := stres.1.2, err := some e, detached := detached,
              fdClosed := true, metaSaved := true, storeAttempted := true,
              modTimeSet := modTimeSet }
          | none =>
            { item := { stres.1.1 with changed := false }, disk := stres.1.2, err := none,
              detached := detached, fdClosed := true, metaSaved := true,
              storeAttempted := true, modTimeSet := modTimeSet }
        else
          { item := item4, disk := sres.1, err := fdErr, detached := detached,
            fdClosed := true, metaSaved := true, storeAttempted := false,
            modTimeSet := modTimeSet }

/-- Result of Close: final item and disk, the returned error, and which
effects took place. -/
structure CloseResult where
  item : Item
  disk : Disk
  err : Option VErr
  fdClosed : Bool
  metaSaved : Bool
  storeAttempted : Bool
  dlDetachedClosed : Bool
  storeFnCalled : Bool
  modTimeSet : Bool
deriving Repr, DecidableEq

/-- Embeds Close (item.go lines 348 to 415): the body followed by the
deferred function, which closes the detached downloader (its error surfacing
only when no earlier error exists) and then calls storeFn when no error
resulted and a storeFn was supplied. -/
def Item.Close (item : Item) (disk : Disk) (env : Env) (hasStoreFn : Bool) (now : Int) :
    CloseResult :=
  let s := item.closeCore disk env now
  let err :=
    match s.detached with
    | none => s.err
    | some _ =>
      if env.dlCloseOk then s.err
      else
        match s.err with
        | none => some VErr.dlCloseFailed
        | some e => some e
  { item := s.item, disk := s.disk, err := err, fdClosed := s.fdClosed,
    metaSaved := s.metaSaved, storeAttempted := s.storeAttempted,
    dlDetachedClosed := s.detached.isSome,
    storeFnCalled := err.isNone && hasStoreFn, modTimeSet := s.modTimeSet }

/-- Result of ReadAt: the updated item, bytes read, error. -/
structure ReadRes where
  item : Item
  n : Int
  err : Option VErr
deriving Repr, DecidableEq

/-- Embeds ReadAt (item.go lines 609 to 622): not-open error when no file
handle, else ensure the requested range and read from the backing file (the
OS-level positional read is modelled as reading the full buffer). -/
def Item.ReadAt (item : Item) (env : Env) (blen off : Int) : ReadRes :=
  if item.fd = false then
    { item := item, n := 0, err := some .readAtNotOpen }
  else
    let eres := item.ensure env off blen
    match eres.err with
    | some e => { item := eres.item, n := 0, err := some e }
    | none => { item := eres.item, n := blen, err := none }

/-- Result of WriteAt: the updated item and disk, bytes written, error. -/
structure WriteRes where
  item : Item
  disk : Disk
  n : Int
  err : Option VErr
deriving Repr, DecidableEq

/-- Embeds WriteAt (item.go lines 625 to 640): not-open error when no file
handle, else write to the backing file (modelled as a full successful write,
growing the file when writing past its end), record the write via written,
and set the dirty flag when bytes were written. -/
def Item.WriteAt (item : Item) (disk : Disk) (env : Env) (blen off : Int) : WriteRes :=
  if item.fd = false then
    { item := item, disk := disk, n := 0, err := some .writeAtNotOpen }
  else
    let n := blen
    let disk2 := { disk with backing := some (max (disk.backing.getD 0) (off + n)) }
    let wres := item.written disk2 env off n
    let item2 := if n > 0 then { wres.1 with changed := true } else wres.1
    { item := item2, disk := wres.2, n := n, err := none }

/-- Environment in which every external call succeeds. -/
def envAllOk : Env :=
  { saveOk := true, fdCloseOk := true, newDownloaderOk := true, startOk := true,
    ensureOk := true, dlCloseOk := true, newObjectOk := true, copyOk := true,
    copyResult := { size := 5, fingerprint := "FC" } }

/-- A freshly constructed, closed, empty item. -/
def itemBase : Item :=
  { opens := 0, fd := false, downloader := none, o := none, changed := false,
    ATime := 0, Size := 0, Rs := [], Fingerprint := "" }

/-- A backing file of ten bytes with no metadata. -/
def diskTen : Disk := { backing := some 10, meta := .absent }

/-- An open item of size ten that is fully present. -/
def itemFull10 : Item :=
  { itemBase with
      opens := 1, fd := true, Size := 10, Rs := [{ pos := 0, size := 10 }] }

/-- An open item of size twenty with nothing present yet. -/
def itemTwenty : Item :=
  { itemBase with opens := 1, fd := true, Size := 20 }

/-- A backing file of twenty bytes with no metadata. -/
def diskTwenty : Disk := { backing := some 20, meta := .absent }

/-- The item of spec scenario S4: size four, fully present, open once. -/
def itemS4 : Item :=
  { itemBase with
      opens := 1, fd := true, Size := 4, Rs := [{ pos := 0, size := 4 }] }

/-- A backing file of four bytes with no metadata. -/
def diskFour : Disk := { backing := some 4, meta := .absent }

/-- The item of spec scenario S3: cached fingerprint F1, size four, present. -/
def itemF1 : Item :=
  { itemBase with
      Fingerprint := "F1", Size := 4, Rs := [{ pos := 0, size := 4 }] }

/-- On-disk state matching itemF1. -/
def diskF1 : Disk :=
  { backing := some 4, meta := .good 4 [{ pos := 0, size := 4 }] "F1" 0 }

/-- The remote object of spec scenario S3, with the differing fingerprint. -/
def objF2 : Obj := { size := 10, fingerprint := "F2" }

/-- The fully present item opened twice. -/
def itemTwoOpens : Item := { itemFull10 with opens := 2 }

/-- A corrupt metadata file next to a seven byte backing file. -/
def diskCorrupt7 : Disk := { backing := some 7, meta := .corrupt }

/-- A closed item holding a remote object of size forty-two. -/
def itemRemote42 : Item :=
  { itemBase with o := some { size := 42, fingerprint := "F" } }

/-- Empty on-disk state: no backing file, no metadata. -/
def diskAbsent : Disk := { backing := none, meta := .absent }

theorem Item.ensure_opens (item : Item) (env : Env) (offset size : Int) :
    (item.ensure env offset size).item.opens = item.opens := by
  simp only [Item.ensure, Item.newDownloaderOp]
  repeat' split
  all_goals try simp_all

theorem Item.ensure_fd (item : Item) (env : Env) (offset size : Int) :
    (item.ensure env offset size).item.fd = item.fd := by
  simp only [Item.ensure, Item.newDownloaderOp]
  repeat' split
  all_goals try simp_all

theorem Item.store_opens (item : Item) (disk : Disk) (env : Env) :
    ((item.store disk env).1.1).opens = item.opens := by
  simp only [Item.store]
  repeat' split
  all_goals try simp_all [Item.ensure_opens]

theorem Item.store_fd (item : Item) (disk : Disk) (env : Env) :
    ((item.store disk env).1.1).fd = item.fd := by
  simp only [Item.store]
  repeat' split
  all_goals try simp_all [Item.ensure_fd]

theorem Item.closeCore_opens (item : Item) (disk : Disk) (env : Env) (now : Int) :
    (item.closeCore disk env now).item.opens = item.opens - 1 := by
  simp only [Item.closeCore, Item.saveMeta]
  repeat' split
  all_goals try simp_all [Item.store_opens]

theorem Item.closeCore_neg (item : Item) (disk : Disk) (env : Env) (now : Int)
    (h : item.opens - 1 < 0) :
    item.closeCore disk env now =
      { item := { item with ATime := now, opens := item.opens - 1 }, disk := disk,
        err := some .alreadyClosed, detached := none, fdClosed := false,
        metaSaved := false, storeAttempted := false, modTimeSet := false } := by
  simp [Item.closeCore, h]

theorem Item.closeCore_pos (item : Item) (disk : Disk) (env : Env) (now : Int)
    (h : 0 < item.opens - 1) :
    item.closeCore disk env now =
      { item := { item with ATime := now, opens := item.opens - 1 }, disk := disk,
        err := none, detached := none, fdClosed := false,
        metaSaved := false, storeAttempted := false, modTimeSet := false } := by
  have h2 : ¬ (item.opens - 1 < 0) := by omega
  simp [Item.closeCore, h, h2]

theorem Item.closeCore_final (item : Item) (disk : Disk) (env : Env) (now : Int) :
    (item.closeCore disk env now).err = none →
    (item.closeCore disk env now).item.opens = 0 →
    (item.closeCore disk env now).item.fd = false ∧
    (item.changed = false → (item.closeCore disk env now).item.downloader = none) := by
  simp only [Item.closeCore, Item.saveMeta]
  repeat' split
  all_goals intro herr hopens
  all_goals first
    | (exfalso; simp_all; done)
    | (exfalso; simp_all; omega)
    | simp_all [Item.store_fd]

/-- Claim C1.  The claim states that written (markWritten) with offset 4 and
length 6 adds exactly the bytes of the half-open interval from 4 to 10.  The
code inserts the range with Pos 4 and Size 4 plus 6, so byte 12 becomes
present although it lies outside the claimed interval: the claim fails on the
code.  This theorem evaluates the embedded written at the failing input. -/
theorem claimC1_written_marks_extra_bytes :
    Ranges.memB (Item.written itemTwenty diskTwenty envAllOk 4 6).1.Rs 12 = true ∧
    RRange.memB { pos := 4, size := 6 } 12 = false := by decide

/-- Claim C2.  The claim states the invariant that after every public
operation all present ranges lie within the interval from 0 to size.  A
WriteAt of one byte at offset 5 on a fully present open item of size ten
leaves size ten but marks byte 10 present (the buggy written inserts the
interval from 5 to 16), so the invariant fails on the code.  This theorem
evaluates the embedded WriteAt at the failing input. -/
theorem claimC2_writeAt_breaks_range_bound :
    (Item.WriteAt itemFull10 diskTen envAllOk 1 5).item.Size = 10 ∧
    Ranges.memB (Item.WriteAt itemFull10 diskTen envAllOk 1 5).item.Rs 10 = true := by decide

/-- Claim C3, counterexample.  On the scenario S3 input (cached fingerprint
F1, remote fingerprint F2) reconciliation leaves the item fingerprint empty
rather than setting it to the remote fingerprint F2 as the claim states: the
stale branch removes the cached data, and the assignment of the remote
fingerprint sits in the else branch that is not taken. -/
theorem claimC3_stale_fingerprint_counterexample :
    (Item.checkObject itemF1 diskF1 (some objF2) 1).1.Fingerprint = "" ∧
    (Item.checkObject itemF1 diskF1 (some objF2) 1).1.Fingerprint ≠ "F2" := by decide

/-- Claim C3 as amended.  When Open reconciles (via checkObject) with a
non-nil remote whose fingerprint differs from the non-empty cached
fingerprint, both on-disk files are removed and the cached ranges zeroed, the
size becomes the remote size and the remote object is stored, but the
fingerprint is left empty, not set to the remote fingerprint. -/
theorem claimC3_stale_reconciliation_amended (item : Item) (disk : Disk) (ob : Obj)
    (now : Int) (hfp : item.Fingerprint ≠ "") (hdiff : ob.fingerprint ≠ item.Fingerprint) :
    (Item.checkObject item disk (some ob) now).1 =
      { opens := item.opens, fd := item.fd, downloader := item.downloader,
        o := some ob, changed := item.changed, ATime := now, Size := ob.size,
        Rs := [], Fingerprint := "" } ∧
    (Item.checkObject item disk (some ob) now).2 =
      { backing := none, meta := .absent } := by
  simp [Item.checkObject, Item.removeAll, Item.clean, Disk.removeFile,
    Disk.removeMeta, hfp, hdiff]

/-- Claim C3 amended, witness at the scenario S3 input. -/
theorem claimC3_stale_reconciliation_amended_witness :
    (Item.checkObject itemF1 diskF1 (some objF2) 1).1 =
      { opens := itemF1.opens, fd := itemF1.fd, downloader := itemF1.downloader,
        o := some objF2, changed := itemF1.changed, ATime := 1, Size := objF2.size,
        Rs := [], Fingerprint := "" } ∧
    (Item.checkObject itemF1 diskF1 (some objF2) 1).2 =
      { backing := none, meta := .absent } :=
  claimC3_stale_reconciliation_amended itemF1 diskF1 objF2 1 (by decide) (by decide)

/-- Claim C4.  The claim replays scenario S4: Truncate(10) on an item of size
4 that is fully present should yield size 10, dirty true and present ranges
exactly the interval from 0 to 10.  On the code Truncate succeeds with size
10 and dirty true, but written(4, 10) inserts the interval from 4 to 18, so
byte 15 is also marked present: the claim fails on the code.  This theorem
evaluates the embedded Truncate at the failing input. -/
theorem claimC4_s4_truncate_overshoots :
    (Item.Truncate itemS4 diskFour envAllOk 10).2 = none ∧
    (Item.Truncate itemS4 diskFour envAllOk 10).1.1.Size = 10 ∧
    (Item.Truncate itemS4 diskFour envAllOk 10).1.1.changed = true ∧
    Ranges.memB (Item.Truncate itemS4 diskFour envAllOk 10).1.1.Rs 15 = true := by decide

/-- Claim C5, counterexample.  A Close on an item opened twice returns no
error yet leaves opens at 1 and the backing file handle open, so the claim
quantified over every error-free Close fails. -/
theorem claimC5_intermediate_close_counterexample :
    (Item.Close itemTwoOpens diskTen envAllOk false 1).err = none ∧
    (Item.Close itemTwoOpens diskTen envAllOk false 1).item.opens = 1 ∧
    (Item.Close itemTwoOpens diskTen envAllOk false 1).item.fd = true := by decide

/-- Claim C5 as amended.  A Close that returns no error and brings opens to 0
leaves no open backing-file handle; if moreover the item was not dirty at the
call, it also leaves no attached downloader.  (The downloader condition is
needed: a dirty final Close that had to fetch missing ranges re-creates a
downloader inside store and leaves it attached.) -/
theorem claimC5_final_close_clears_handles (item : Item) (disk : Disk) (env : Env)
    (hasStoreFn : Bool) (now : Int)
    (hok : (Item.Close item disk env hasStoreFn now).err = none)
    (hzero : (Item.Close item disk env hasStoreFn now).item.opens = 0) :
    (Item.Close item disk env hasStoreFn now).item.fd = false ∧
    (item.changed = false →
      (Item.Close item disk env hasStoreFn now).item.downloader = none) := by
  have hitem : (Item.Close item disk env hasStoreFn now).item =
      (item.closeCore disk env now).item := rfl
  have herr : (item.closeCore disk env now).err = none := by
    revert hok
    simp only [Item.Close]
    rcases (item.closeCore disk env now).detached with _ | d
    · simp
    · by_cases hdl : env.dlCloseOk
      · simp [hdl]
      · rcases herr2 : (item.closeCore disk env now).err with _ | e <;> simp [hdl, herr2]
  rw [hitem] at hzero ⊢
  exact Item.closeCore_final item disk env now herr hzero

/-- Claim C5 amended, witness: the final Close of a clean fully present item
of size ten. -/
theorem claimC5_final_close_clears_handles_witness :
    (Item.Close itemFull10 diskTen envAllOk false 1).item.fd = false ∧
    (itemFull10.changed = false →
      (Item.Close itemFull10 diskTen envAllOk false 1).item.downloader = none) :=
  claimC5_final_close_clears_handles itemFull10 diskTen envAllOk false 1
    (by decide) (by decide)

/-- Claim C6.  Close first decrements opens (in every branch the resulting
opens is one less than before); when the decremented count is negative it
fails with the already-closed error; when it is still positive it returns
success without closing the file handle, saving metadata, stopping the
downloader, or uploading, and with the handle and downloader fields
untouched. -/
theorem claimC6_close_decrement_and_early_paths (item : Item) (disk : Disk)
    (env : Env) (hasStoreFn : Bool) (now : Int) :
    (Item.Close item disk env hasStoreFn now).item.opens = item.opens - 1 ∧
    (item.opens - 1 < 0 →
      (Item.Close item disk env hasStoreFn now).err = some VErr.alreadyClosed) ∧
    (0 < item.opens - 1 →
      (Item.Close item disk env hasStoreFn now).err = none ∧
      (Item.Close item disk env hasStoreFn now).fdClosed = false ∧
      (Item.Close item disk env hasStoreFn now).metaSaved = false ∧
      (Item.Close item disk env hasStoreFn now).dlDetachedClosed = false ∧
      (Item.Close item disk env hasStoreFn now).storeAttempted = false ∧
      (Item.Close item disk env hasStoreFn now).item.fd = item.fd ∧
      (Item.Close item disk env hasStoreFn now).item.downloader = item.downloader) := by
  refine ⟨?_, ?_, ?_⟩
  · show (item.closeCore disk env now).item.opens = item.opens - 1
    exact Item.closeCore_opens item disk env now
  · intro h
    have hc := Item.closeCore_neg item disk env now h
    simp [Item.Close, hc]
  · intro h
    have hc := Item.closeCore_pos item disk env now h
    simp [Item.Close, hc]

/-- Claim C6, witness: an item at opens 0 fails with already-closed, and an
item at opens 2 returns success from the early path. -/
theorem claimC6_close_decrement_witness :
    (Item.Close itemBase diskTen envAllOk false 1).err = some VErr.alreadyClosed ∧
    (Item.Close itemTwoOpens diskTen envAllOk false 1).err = none :=
  ⟨(claimC6_close_decrement_and_early_paths itemBase diskTen envAllOk false 1).2.1
      (by decide),
   ((claimC6_close_decrement_and_early_paths itemTwoOpens diskTen envAllOk false 1).2.2
      (by decide)).1⟩

/-- Claim C7, counterexample.  With a seven byte backing file and corrupt
metadata, newItem removes both files and zeroes ranges and fingerprint, but
then re-assigns Size from the stat taken before the removal, so the resulting
size is 7, not 0 as the claim states. -/
theorem claimC7_corrupt_meta_size_counterexample :
    (newItem diskCorrupt7 0).1.Size = 7 ∧
    (newItem diskCorrupt7 0).1.Size ≠ 0 ∧
    (newItem diskCorrupt7 0).1.Rs = [] ∧
    (newItem diskCorrupt7 0).1.Fingerprint = "" := by decide

/-- Claim C7 as amended.  When the metadata is corrupt (which requires the
backing file to exist, else the metadata is removed before loading and
classified absent), newItem removes the backing file and the metadata file
and zeroes ranges and fingerprint, but the resulting size equals the backing
file size observed by the initial stat, not 0. -/
theorem claimC7_corrupt_meta_recovery (disk : Disk) (s : Int) (now : Int)
    (hb : disk.backing = some s) (hm : disk.meta = .corrupt) :
    (newItem disk now).1 =
      { opens := 0, fd := false, downloader := none, o := none, changed := false,
        ATime := now, Size := s, Rs := [], Fingerprint := "" } ∧
    (newItem disk now).2 = { backing := none, meta := .absent } := by
  simp [newItem, Item.removeAll, Item.clean, Disk.removeFile, Disk.removeMeta, hb, hm]

/-- Claim C7 amended, witness at the seven byte corrupt input. -/
theorem claimC7_corrupt_meta_recovery_witness :
    (newItem diskCorrupt7 0).1 =
      { opens := 0, fd := false, downloader := none, o := none, changed := false,
        ATime := 0, Size := 7, Rs := [], Fingerprint := "" } ∧
    (newItem diskCorrupt7 0).2 = { backing := none, meta := .absent } :=
  claimC7_corrupt_meta_recovery diskCorrupt7 7 0 (by decide) (by decide)

/-- Claim C8, counterexample.  The pre-clamp of ensure at size 10, offset 20,
length 5 yields the negative length minus 10, so the claimed non-negativity
of the clamped length for every offset, including offsets beyond the size,
fails on the code. -/
theorem claimC8_negative_clamp_counterexample :
    ensureClamp 10 20 5 = -10 ∧ ¬ (0 ≤ ensureClamp 10 20 5) := by decide

/-- Claim C8 as amended.  The clamped length is non-negative whenever the
offset does not exceed the size (and the requested length is non-negative);
and whenever the clamped range is already fully present, ensure returns
immediately with no error, an unchanged item, and without creating or
starting a downloader. -/
theorem claimC8_ensure_clamp_and_present (item : Item) (env : Env) (offset len : Int)
    (hle : offset ≤ item.Size) (hlen : 0 ≤ len) :
    0 ≤ ensureClamp item.Size offset len ∧
    (Ranges.Present item.Rs { pos := offset, size := ensureClamp item.Size offset len } = true →
      item.ensure env offset len =
        { item := item, err := none, dlCreated := false, dlStarted := false }) := by
  constructor
  · unfold ensureClamp
    split <;> omega
  · intro hp
    simp only [Item.ensure]
    simp [hp]

/-- Claim C8 amended, witness: offset 2, length 3 on the fully present item
of size ten. -/
theorem claimC8_ensure_clamp_and_present_witness :
    0 ≤ ensureClamp itemFull10.Size 2 3 ∧
    (Ranges.Present itemFull10.Rs
        { pos := 2, size := ensureClamp itemFull10.Size 2 3 } = true →
      Item.ensure itemFull10 envAllOk 2 3 =
        { item := itemFull10, err := none, dlCreated := false, dlStarted := false }) :=
  claimC8_ensure_clamp_and_present itemFull10 envAllOk 2 3 (by decide) (by decide)

/-- Claim C9.  ReadAt and WriteAt on an item with no open backing-file handle
return 0 bytes and the respective not-open internal-consistency error, and
leave the item (opens, dirty flag, size, ranges, fingerprint) and the disk
entirely unchanged. -/
theorem claimC9_not_open_errors (item : Item) (disk : Disk) (env : Env)
    (blen off : Int) (h : item.fd = false) :
    Item.ReadAt item env blen off =
      { item := item, n := 0, err := some VErr.readAtNotOpen } ∧
    Item.WriteAt item disk env blen off =
      { item := item, disk := disk, n := 0, err := some VErr.writeAtNotOpen } := by
  constructor <;> simp [Item.ReadAt, Item.WriteAt, h]

/-- Claim C9, witness at the closed empty item. -/
theorem claimC9_not_open_errors_witness :
    Item.ReadAt itemBase envAllOk 4 0 =
      { item := itemBase, n := 0, err := some VErr.readAtNotOpen } ∧
    Item.WriteAt itemBase diskTen envAllOk 4 0 =
      { item := itemBase, disk := diskTen, n := 0, err := some VErr.writeAtNotOpen } :=
  claimC9_not_open_errors itemBase diskTen envAllOk 4 0 (by decide)

/-- Claim C10.  When the backing file is absent but a remote object is held,
getSize returns the remote object size with no error and Exists is true; and
getSize returns an error only when the backing file is absent and no remote
object is held, in which case Exists is false. -/
theorem claimC10_getSize_remote_fallback (item : Item) (disk : Disk) :
    (disk.backing = none → ∀ ob : Obj, item.o = some ob →
      item.getSize disk = Except.ok ob.size ∧ item.Exists disk = true) ∧
    (∀ e : VErr, item.getSize disk = Except.error e →
      disk.backing = none ∧ item.o = none ∧ item.Exists disk = false) := by
  rcases hb : disk.backing with _ | s <;> rcases ho : item.o with _ | ob <;>
    simp_all [Item.getSize, Item.Exists]

/-- Claim C10, witness: absent backing file with a remote object of size 42,
and absent backing file with no remote object. -/
theorem claimC10_getSize_remote_fallback_witness :
    (Item.getSize itemRemote42 diskAbsent = Except.ok (42 : Int) ∧
      Item.Exists itemRemote42 diskAbsent = true) ∧
    (Item.getSize itemBase diskAbsent = Except.error VErr.statNotExist →
      diskAbsent.backing = none ∧ itemBase.o = none ∧
      Item.Exists itemBase diskAbsent = false) :=
  ⟨by
    have h := (claimC10_getSize_remote_fallback itemRemote42 diskAbsent).1 (by decide)
      { size := 42, fingerprint := "F" } (by decide)
    exact ⟨h.1, h.2⟩,
   fun he => (claimC10_getSize_remote_fallback itemBase diskAbsent).2 VErr.statNotExist he⟩

end VfsCache
